import Mathlib

/-!
Shallow embedding of the CUER BMU v3.1 firmware (src/src/main.cpp together
with src/include/bmu.h).

Modelling conventions:

* Machine integers: the IVT scalars are C ints (32-bit signed); they are
  modelled as Lean Int, with the CAN decode performing the explicit
  twos-complement reinterpretation of the assembled 32-bit word.  CAN data
  bytes and status bytes are Nat.
* The status byte array BMU_status_array is modelled byte by byte
  (status0 .. status5); the C bit operations |= 1 shl k and
  land with the complement of 1 shl k are modelled by setBit / clrBit on
  Nat (the bytes always stay below 256).
* GPIO outputs (prechg_enable, dischg_disable, hvdc_enable, solar_enable)
  are Bool fields; the on-board LEDs and the debug printf calls have no
  observable effect on the supervisor state and are omitted.
* The IVT freshness Timer is modelled by an absolute arrival time carried
  on each receive event: on a current frame (0x520 / 0x530) the source
  stops the timer, latches the elapsed interval into IVT_time and
  restarts it; the model keeps ivt_timer_start and latches
  now - ivt_timer_start, exactly the elapsed interval.
* The temperature comparisons in the source are (t * 0.1) > 75 and
  (t * 0.1) < 2 on IEEE doubles with t a 32-bit int.  For every such t
  these coincide exactly with the integer comparisons t > 750 and t < 20
  (the only boundary products 750 * 0.1 and 20 * 0.1 round to exactly
  75.0 and 2.0), which is how they are rendered here.
* The blocking precharge / discharge micro-sequences (wait_us, the spin
  on prechg_detect) are modelled as atomic routines that run to
  completion, as observed by the rest of the program.
* config_IVT only transmits configuration frames and changes no
  supervisor state, so the corresponding receive cases are no-ops here.
-/

/-- Per-pack IVT sample record, from struct ivt_state in bmu.h. -/
structure ivt_state_t where
  current : Int
  voltage1 : Int
  voltage2 : Int
  voltage3 : Int
  temperature : Int
  power : Int
  charge : Int
  energy : Int
deriving Repr, DecidableEq

/-- Supervisor flag record, from struct bmu_state in bmu.h. -/
structure bmu_state_t where
  over_current : Bool
  under_voltage : Bool
  over_voltage : Bool
  under_temperature : Bool
  over_temperature : Bool
  safe_to_drive : Bool
  charging_state : Bool
  precharge_state : Bool
  discharge_state : Bool
  contactor_state : Bool
  fan1_state : Nat
  fan2_state : Nat
  fan3_state : Nat
  fan4_state : Nat
deriving Repr, DecidableEq

/-- The process-wide mutable state of main.cpp: the BMU struct, the two IVT
sample structs, the cell arrays, the hysteresis memory flags, the demand
flags, the error flag, the latched IVT freshness interval, the status and
contactor CAN payload bytes and the relay GPIO outputs. -/
structure Sys where
  BMU : bmu_state_t
  ivt_front : ivt_state_t
  ivt_rear : ivt_state_t
  cell_voltages : Fin 32 → Nat
  cell_temperatures : Fin 2 → Fin 8 → Nat
  over_voltage_flag : Bool
  under_voltage_flag : Bool
  over_temperature_flag : Bool
  under_temperature_flag : Bool
  ignition_demand : Bool
  previous_ignition_demand : Bool
  solar_demand : Bool
  error_flag : Bool
  IVT_time : Nat
  ivt_timer_start : Nat
  status0 : Nat
  status1 : Nat
  status2 : Nat
  status3 : Nat
  status4 : Nat
  status5 : Nat
  previous_status : Nat
  prechg_enable : Bool
  dischg_disable : Bool
  hvdc_enable : Bool
  solar_enable : Bool
  contactor_cmd : Nat

/-- MAX_DISCHARGE_MAH from main.cpp. -/
def max_current : Int := 100000

/-- MAX_CHARGE_MAH from main.cpp (negative: charging direction). -/
def max_charging_current : Int := -100000

/-- MAX_BATTERY_PACK_VOTAGE_MV from main.cpp (name kept as in source). -/
def max_battery_pack_voltage_mv : Int := 67040

/-- MIN_BATTERY_PACK_VOLTAGE_MV from main.cpp. -/
def min_battery_pack_voltage_mv : Int := 48000

/-- BATTERY_PACK_VOLTAGE_HYSTERESIS from main.cpp. -/
def battery_pack_hysteresis : Int := 160

/-- IVT_TIMEOUT_MS from main.cpp. -/
def IVT_TIMEOUT_MS : Nat := 1000

/-- Largest of the two IVT currents, from ivt_max_current in main.cpp. -/
def ivt_max_current (s : Sys) : Int :=
  if s.ivt_front.current > s.ivt_rear.current then s.ivt_front.current
  else s.ivt_rear.current

/-- Transcribed verbatim from ivt_min_current in main.cpp: the body is the
same conditional as ivt_max_current, so it also returns the larger of the
two currents, not the smaller. -/
def ivt_min_current (s : Sys) : Int :=
  if s.ivt_front.current > s.ivt_rear.current then s.ivt_front.current
  else s.ivt_rear.current

/-- Sets bit k of a status byte, modelling b |= 1 shl k. -/
def setBit (b k : Nat) : Nat := b ||| (1 <<< k)

/-- Clears bit k of a status byte, modelling b &= complement of 1 shl k on
an 8-bit char (the mask 255 - 2 ^ k has every bit below 8 except bit k). -/
def clrBit (b k : Nat) : Nat := b &&& (255 - (1 <<< k))

/-- The check_cells function of main.cpp: charging detection, IVT current
bound, IVT pack-voltage bounds with hysteresis memory, IVT temperature
bounds.  The local flag mutations are rendered as a sequence of rebindings
in source order; note that the front under-temperature branch sets
under_voltage_flag, exactly as the source does. -/
def check_cells (s : Sys) : Sys :=
  let b1 := if ivt_max_current s < 0 then { s.BMU with charging_state := true }
            else { s.BMU with charging_state := false }
  let b2 := if ivt_max_current s ≥ max_current ∨ ivt_min_current s < max_charging_current
            then { b1 with over_current := true }
            else { b1 with over_current := false }
  let temp_max := if s.over_voltage_flag
                  then max_battery_pack_voltage_mv + battery_pack_hysteresis
                  else max_battery_pack_voltage_mv
  let temp_min := if s.under_voltage_flag
                  then min_battery_pack_voltage_mv - battery_pack_hysteresis
                  else min_battery_pack_voltage_mv
  let ovf0 : Bool := false
  let uvf0 : Bool := false
  let ovf1 := if s.ivt_front.voltage1 > temp_max then true else ovf0
  let b3 := if s.ivt_front.voltage1 > temp_max then { b2 with over_voltage := true } else b2
  let uvf1 := if s.ivt_front.voltage1 < temp_min then true else uvf0
  let b4 := if s.ivt_front.voltage1 < temp_min then { b3 with under_voltage := true } else b3
  let ovf2 := if s.ivt_rear.voltage1 > temp_max then true else ovf1
  let b5 := if s.ivt_rear.voltage1 > temp_max then { b4 with over_voltage := true } else b4
  let uvf2 := if s.ivt_rear.voltage1 < temp_min then true else uvf1
  let b6 := if s.ivt_rear.voltage1 < temp_min then { b5 with under_voltage := true } else b5
  let b7 := if ovf2 = false ∧ uvf2 = false
            then { b6 with under_voltage := false, over_voltage := false } else b6
  let otf1 := if s.ivt_front.temperature > 750 then true else s.over_temperature_flag
  let b8 := if s.ivt_front.temperature > 750 then { b7 with over_temperature := true } else b7
  let uvf3 := if s.ivt_front.temperature < 20 then true else uvf2
  let b9 := if s.ivt_front.temperature < 20 then { b8 with under_temperature := true } else b8
  let otf2 := if s.ivt_rear.temperature > 750 then true else otf1
  let b10 := if s.ivt_rear.temperature > 750 then { b9 with over_temperature := true } else b9
  let utf1 := if s.ivt_rear.temperature < 20 then true else s.under_temperature_flag
  let b11 := if s.ivt_rear.temperature < 20 then { b10 with under_temperature := true } else b10
  let b12 := if otf2 = false ∧ utf1 = false
             then { b11 with under_temperature := false, over_temperature := false } else b11
  { s with BMU := b12,
           over_voltage_flag := ovf2,
           under_voltage_flag := uvf3,
           over_temperature_flag := otf2,
           under_temperature_flag := utf1 }

/-- The IVT staleness test at the top of update_BMU_status_array: the
latched interval IVT_time is compared against IVT_TIMEOUT_MS. -/
def ivt_timeout_raised (s : Sys) : Bool := decide (s.IVT_time > IVT_TIMEOUT_MS)

/-- The update_BMU_status_array function of main.cpp: recomputes error_flag
from the latched IVT interval and the BMU fault flags, updates the status
bytes bit by bit, forces the ignition demand off on error, and mirrors the
mode flags and fan bytes. -/
def update_BMU_status_array (s : Sys) : Sys :=
  let e0 := ivt_timeout_raised s
  let e1 := if s.BMU.over_current then true else e0
  let a1 := if s.BMU.over_current then setBit s.status0 0 else clrBit s.status0 0
  let e2 := if s.BMU.under_voltage then true else e1
  let a2 := if s.BMU.under_voltage then setBit a1 1 else clrBit a1 1
  let e3 := if s.BMU.over_voltage then true else e2
  let a3 := if s.BMU.over_voltage then setBit a2 2 else clrBit a2 2
  let e4 := if s.BMU.under_temperature then true else e3
  let a4 := if s.BMU.under_temperature then setBit a3 3 else clrBit a3 3
  let e5 := if s.BMU.over_temperature then true else e4
  let a5 := if s.BMU.over_temperature then setBit a4 4 else clrBit a4 4
  let bmu1 := if e5 then { s.BMU with safe_to_drive := false }
              else { s.BMU with safe_to_drive := true }
  let a6 := if e5 then clrBit a5 5 else setBit a5 5
  let ign1 := if e5 then (if s.ignition_demand then false else s.ignition_demand)
              else s.ignition_demand
  let pign1 := if e5 then (if s.ignition_demand then true else s.previous_ignition_demand)
               else s.previous_ignition_demand
  let c1 := if s.BMU.charging_state then setBit s.status1 0 else clrBit s.status1 0
  let c2 := if s.BMU.precharge_state then setBit c1 1 else clrBit c1 1
  let c3 := if s.BMU.discharge_state then setBit c2 2 else clrBit c2 2
  { s with BMU := bmu1,
           error_flag := e5,
           status0 := a6,
           status1 := c3,
           status2 := s.BMU.fan1_state,
           status3 := s.BMU.fan2_state,
           status4 := s.BMU.fan3_state,
           status5 := s.BMU.fan4_state,
           ignition_demand := ign1,
           previous_ignition_demand := pign1 }

/-- The precharge routine of main.cpp, as the atomic micro-sequence it is
to the rest of the program: clear discharge_state, open the discharge
relay, close the precharge relay, wait and spin on prechg_detect, close
the main HV contactor, open the precharge relay, record precharge_state.
The transient currently_precharging flag is true only strictly inside the
routine and is omitted. -/
def precharge (s : Sys) : Sys :=
  let s1 := { s with BMU := { s.BMU with discharge_state := false },
                     dischg_disable := true,
                     prechg_enable := true }
  let s2 := { s1 with hvdc_enable := true }
  let s3 := { s2 with prechg_enable := false }
  { s3 with BMU := { s3.BMU with precharge_state := true } }

/-- The discharge routine of main.cpp: clear precharge_state, open the
precharge relay and the main HV contactor, close the discharge relay,
record discharge_state. -/
def discharge (s : Sys) : Sys :=
  let s1 := { s with BMU := { s.BMU with precharge_state := false },
                     prechg_enable := false,
                     hvdc_enable := false }
  let s2 := { s1 with dischg_disable := false }
  { s2 with BMU := { s2.BMU with discharge_state := true } }

/-- The update_relays function of main.cpp.  On a rising ignition edge
while safe to drive it sets the contactor command byte to 1, emits the
0x34F frame and precharges if not yet precharged; otherwise it sets the
command byte to 0, emits the frame, discharges if not yet discharged and
re-evaluates the solar enable output. -/
def update_relays (s : Sys) : Sys :=
  if s.ignition_demand && !s.previous_ignition_demand && s.BMU.safe_to_drive then
    let s1 := { s with contactor_cmd := 1 }
    if !s1.BMU.precharge_state then precharge s1 else s1
  else
    let s1 := { s with contactor_cmd := 0 }
    let s2 := if !s1.BMU.discharge_state then discharge s1 else s1
    { s2 with solar_enable := s2.solar_demand && s2.BMU.safe_to_drive }

/-- The beat function of main.cpp: sends the status frame (whose payload
is exactly the status bytes already held in the state) and runs the relay
update. -/
def beat (s : Sys) : Sys := update_relays s

/-- One iteration of the main loop of main.cpp: check_cells, then
update_BMU_status_array, then a beat if the heartbeat ticker has fired,
then a further beat if error_flag is set and status byte 0 differs from
the value latched at the end of the previous iteration, and finally the
latching of status byte 0 into previous_status. -/
def mainLoopIter (s : Sys) (hb : Bool) : Sys :=
  let s1 := update_BMU_status_array (check_cells s)
  let s2 := if hb then beat s1 else s1
  let s3 := if s2.error_flag && (s2.previous_status != s2.status0) then beat s2 else s2
  { s3 with previous_status := s3.status0 }

/-- An inbound CAN frame: an 11-bit identifier and eight data bytes. -/
structure CanMsg where
  id : Nat
  data : Fin 8 → Nat

/-- Assembles bytes 2..5 of an IVT frame, MSB at byte 2, and reinterprets
the 32-bit word as a signed C int, as the int assignment in main.cpp does. -/
def decode_ivt_value (d : Fin 8 → Nat) : Int :=
  let u := (d 5) ||| ((d 4) <<< 8) ||| ((d 3) <<< 16) ||| ((d 2) <<< 24)
  if u < 2 ^ 31 then (u : Int) else (u : Int) - 2 ^ 32

/-- The little-endian 16-bit cell voltage assembly of the 0x360..0x367
decoder loop in main.cpp, for loop index i. -/
def decode_cell_voltage (d : Fin 8 → Nat) (i : Fin 4) : Nat :=
  (d ⟨2 * (i : Nat), by omega⟩) ||| ((d ⟨2 * (i : Nat) + 1, by omega⟩) <<< 8)

/-- The four cell-voltage array writes performed for a frame with
identifier 0x360 + k, in loop order. -/
def writeCellVoltages (cv : Fin 32 → Nat) (k : Nat) (hk : k < 8)
    (d : Fin 8 → Nat) : Fin 32 → Nat :=
  Function.update
    (Function.update
      (Function.update
        (Function.update cv ⟨4 * k, by omega⟩ (decode_cell_voltage d 0))
        ⟨4 * k + 1, by omega⟩ (decode_cell_voltage d 1))
      ⟨4 * k + 2, by omega⟩ (decode_cell_voltage d 2))
    ⟨4 * k + 3, by omega⟩ (decode_cell_voltage d 3)

/-- The CANRecieveRoutine interrupt handler of main.cpp (source spelling
kept).  The now argument is the absolute time of the interrupt in
milliseconds; on a current frame the source latches the elapsed interval
of the freshness timer into IVT_time and restarts the timer, modelled
through ivt_timer_start.  The 0x522, 0x523, 0x532 and 0x533 cases call
config_IVT, which only transmits configuration frames and so is a no-op
on the supervisor state. -/
def CANRecieveRoutine (s : Sys) (m : CanMsg) (now : Nat) : Sys :=
  if h : 0x360 ≤ m.id ∧ m.id ≤ 0x367 then
    { s with cell_voltages := writeCellVoltages s.cell_voltages (m.id - 0x360) (by omega) m.data }
  else if m.id = 0x500 then
    let ig : Bool := (m.data 0 &&& 0x01) != 0
    let s1 := if s.ignition_demand != ig then
                { s with previous_ignition_demand := s.ignition_demand,
                         ignition_demand := ig }
              else s
    { s1 with solar_demand := ((m.data 0 &&& 0x08) != 0) }
  else if m.id = 0x520 then
    { s with ivt_front := { s.ivt_front with current := decode_ivt_value m.data },
             IVT_time := now - s.ivt_timer_start,
             ivt_timer_start := now }
  else if m.id = 0x521 then
    { s with ivt_front := { s.ivt_front with voltage1 := decode_ivt_value m.data } }
  else if 0x522 ≤ m.id ∧ m.id ≤ 0x523 then s
  else if m.id = 0x524 then
    { s with ivt_front := { s.ivt_front with temperature := decode_ivt_value m.data } }
  else if m.id = 0x525 then
    { s with ivt_front := { s.ivt_front with power := decode_ivt_value m.data } }
  else if m.id = 0x526 then
    { s with ivt_front := { s.ivt_front with charge := decode_ivt_value m.data } }
  else if m.id = 0x527 then
    { s with ivt_front := { s.ivt_front with energy := decode_ivt_value m.data } }
  else if m.id = 0x530 then
    { s with ivt_rear := { s.ivt_rear with current := decode_ivt_value m.data },
             IVT_time := now - s.ivt_timer_start,
             ivt_timer_start := now }
  else if m.id = 0x531 then
    { s with ivt_rear := { s.ivt_rear with voltage1 := decode_ivt_value m.data } }
  else if 0x532 ≤ m.id ∧ m.id ≤ 0x533 then s
  else if m.id = 0x534 then
    { s with ivt_rear := { s.ivt_rear with temperature := decode_ivt_value m.data } }
  else if m.id = 0x535 then
    { s with ivt_rear := { s.ivt_rear with power := decode_ivt_value m.data } }
  else if m.id = 0x536 then
    { s with ivt_rear := { s.ivt_rear with charge := decode_ivt_value m.data } }
  else if m.id = 0x537 then
    { s with ivt_rear := { s.ivt_rear with energy := decode_ivt_value m.data } }
  else if m.id = 0x550 then
    { s with cell_temperatures := Function.update s.cell_temperatures 0 (fun i => m.data i) }
  else if m.id = 0x562 then
    { s with cell_temperatures := Function.update s.cell_temperatures 1 (fun i => m.data i) }
  else s

/-- An observable system event: either the CAN receive interrupt fires for
a frame at a given absolute time, or the main loop runs one iteration (the
Bool records whether the 1 Hz heartbeat flag was observed set). -/
inductive Event where
  | recv : CanMsg → Nat → Event
  | loopIter : Bool → Event

/-- One system step. -/
def bmuStep (s : Sys) (e : Event) : Sys :=
  match e with
  | Event.recv m now => CANRecieveRoutine s m now
  | Event.loopIter hb => mainLoopIter s hb

/-- The boot state: C static storage zero-initialises every global, and
main additionally clears the over_voltage, under_voltage, over_current and
safe_to_drive flags and starts the freshness timer. -/
def initSys : Sys where
  BMU := { over_current := false, under_voltage := false, over_voltage := false,
           under_temperature := false, over_temperature := false,
           safe_to_drive := false, charging_state := false,
           precharge_state := false, discharge_state := false,
           contactor_state := false,
           fan1_state := 0, fan2_state := 0, fan3_state := 0, fan4_state := 0 }
  ivt_front := { current := 0, voltage1 := 0, voltage2 := 0, voltage3 := 0,
                 temperature := 0, power := 0, charge := 0, energy := 0 }
  ivt_rear := { current := 0, voltage1 := 0, voltage2 := 0, voltage3 := 0,
                temperature := 0, power := 0, charge := 0, energy := 0 }
  cell_voltages := fun _ => 0
  cell_temperatures := fun _ _ => 0
  over_voltage_flag := false
  under_voltage_flag := false
  over_temperature_flag := false
  under_temperature_flag := false
  ignition_demand := false
  previous_ignition_demand := false
  solar_demand := false
  error_flag := false
  IVT_time := 0
  ivt_timer_start := 0
  status0 := 0
  status1 := 0
  status2 := 0
  status3 := 0
  status4 := 0
  status5 := 0
  previous_status := 0
  prechg_enable := false
  dischg_disable := false
  hvdc_enable := false
  solar_enable := false
  contactor_cmd := 0

/-- Runs the system from boot through a list of events. -/
def runTrace (es : List Event) : Sys := es.foldl bmuStep initSys

/-- A state is reachable when some event trace from boot produces it. -/
def ReachableBMU (s : Sys) : Prop := ∃ es, runTrace es = s

/-- Setting bit 5 of a byte makes bit 5 read true. -/
theorem testBit5_setBit5 (b : Nat) : (setBit b 5).testBit 5 = true := by
  have h32 : Nat.testBit 32 5 = true := by decide
  simp [setBit, Nat.testBit_lor, h32]

/-- Clearing bit 5 of a byte makes bit 5 read false. -/
theorem testBit5_clrBit5 (b : Nat) : (clrBit b 5).testBit 5 = false := by
  have h : (255 - (1 <<< 5)) = 223 := by decide
  have h223 : Nat.testBit 223 5 = false := by decide
  simp [clrBit, h, Nat.testBit_land, h223]

/-- C1: after every update_BMU_status_array pass, safe_to_drive is true
exactly when error_flag is false, where error_flag is the disjunction of
the IVT staleness test and the five fault bits; whenever safe_to_drive
holds, none of the fault bits holds and the staleness test is not raised;
and bit 5 of status byte 0 mirrors safe_to_drive. -/
theorem C1_safe_to_drive_iff_no_error (s : Sys) :
    ((update_BMU_status_array s).BMU.safe_to_drive = !(update_BMU_status_array s).error_flag)
    ∧ ((update_BMU_status_array s).error_flag =
        (ivt_timeout_raised s || s.BMU.over_current || s.BMU.under_voltage ||
         s.BMU.over_voltage || s.BMU.under_temperature || s.BMU.over_temperature))
    ∧ ((update_BMU_status_array s).BMU.safe_to_drive = true →
        (update_BMU_status_array s).BMU.over_current = false ∧
        (update_BMU_status_array s).BMU.over_voltage = false ∧
        (update_BMU_status_array s).BMU.under_voltage = false ∧
        (update_BMU_status_array s).BMU.over_temperature = false ∧
        (update_BMU_status_array s).BMU.under_temperature = false ∧
        ivt_timeout_raised (update_BMU_status_array s) = false)
    ∧ (Nat.testBit (update_BMU_status_array s).status0 5
        = (update_BMU_status_array s).BMU.safe_to_drive) := by
  obtain ⟨⟨oc, uv, ov, ut, ot, sf, ch, pc, dc, cs, f1, f2, f3, f4⟩,
    fr, re, cv, ct, ovf, uvf, otf, utf, ig, pig, sd, ef, it, its,
    a0, a1, a2, a3, a4, a5, ps, pe, de, he, se, cc⟩ := s
  simp only [update_BMU_status_array, ivt_timeout_raised]
  cases h0 : decide (it > IVT_TIMEOUT_MS) <;>
    cases oc <;> cases uv <;> cases ov <;> cases ut <;> cases ot <;>
      simp_all [testBit5_setBit5, testBit5_clrBit5]

/-- Witness for C1 at the boot state, where the pass reports safe. -/
theorem C1_witness :
    (update_BMU_status_array initSys).BMU.over_current = false ∧
    (update_BMU_status_array initSys).BMU.over_voltage = false ∧
    (update_BMU_status_array initSys).BMU.under_voltage = false ∧
    (update_BMU_status_array initSys).BMU.over_temperature = false ∧
    (update_BMU_status_array initSys).BMU.under_temperature = false ∧
    ivt_timeout_raised (update_BMU_status_array initSys) = false :=
  (C1_safe_to_drive_iff_no_error initSys).2.2.1 (by decide)

/-- C9: when an update_BMU_status_array pass raises error_flag while the
ignition demand is set, it clears ignition_demand and sets
previous_ignition_demand; when the demand is already clear, both demand
flags are left unchanged. -/
theorem C9_error_clears_ignition (s : Sys) :
    ((update_BMU_status_array s).error_flag = true → s.ignition_demand = true →
      (update_BMU_status_array s).ignition_demand = false ∧
      (update_BMU_status_array s).previous_ignition_demand = true)
    ∧ ((update_BMU_status_array s).error_flag = true → s.ignition_demand = false →
      (update_BMU_status_array s).ignition_demand = s.ignition_demand ∧
      (update_BMU_status_array s).previous_ignition_demand = s.previous_ignition_demand) := by
  obtain ⟨⟨oc, uv, ov, ut, ot, sf, ch, pc, dc, cs, f1, f2, f3, f4⟩,
    fr, re, cv, ct, ovf, uvf, otf, utf, ig, pig, sd, ef, it, its,
    a0, a1, a2, a3, a4, a5, ps, pe, de, he, se, cc⟩ := s
  simp only [update_BMU_status_array, ivt_timeout_raised]
  cases h0 : decide (it > IVT_TIMEOUT_MS) <;>
    cases oc <;> cases uv <;> cases ov <;> cases ut <;> cases ot <;> cases ig <;>
      simp_all

/-- A state with an over-current fault and the ignition demanded. -/
def w9 : Sys :=
  { initSys with BMU := { initSys.BMU with over_current := true },
                 ignition_demand := true }

/-- Witness for C9: the pass on w9 clears the demand and keeps the edge. -/
theorem C9_witness :
    (update_BMU_status_array w9).ignition_demand = false ∧
    (update_BMU_status_array w9).previous_ignition_demand = true :=
  (C9_error_clears_ignition w9).1 (by decide) (by decide)

set_option maxRecDepth 16384 in
/-- The CAN receive handler never modifies the BMU supervisor struct. -/
theorem recv_BMU_eq (s : Sys) (m : CanMsg) (now : Nat) :
    (CANRecieveRoutine s m now).BMU = s.BMU := by
  simp only [CANRecieveRoutine]
  simp only [apply_dite Sys.BMU, apply_ite Sys.BMU, dite_eq_ite, ite_self]

set_option maxRecDepth 8192 in
/-- check_cells leaves precharge_state unchanged. -/
theorem check_cells_precharge_state (s : Sys) :
    (check_cells s).BMU.precharge_state = s.BMU.precharge_state := by
  simp only [check_cells]
  simp only [apply_ite bmu_state_t.precharge_state, ite_self]

set_option maxRecDepth 8192 in
/-- check_cells leaves discharge_state unchanged. -/
theorem check_cells_discharge_state (s : Sys) :
    (check_cells s).BMU.discharge_state = s.BMU.discharge_state := by
  simp only [check_cells]
  simp only [apply_ite bmu_state_t.discharge_state, ite_self]

/-- update_BMU_status_array leaves precharge_state unchanged. -/
theorem update_status_precharge_state (s : Sys) :
    (update_BMU_status_array s).BMU.precharge_state = s.BMU.precharge_state := by
  simp only [update_BMU_status_array]
  simp only [apply_ite bmu_state_t.precharge_state, ite_self]

/-- update_BMU_status_array leaves discharge_state unchanged. -/
theorem update_status_discharge_state (s : Sys) :
    (update_BMU_status_array s).BMU.discharge_state = s.BMU.discharge_state := by
  simp only [update_BMU_status_array]
  simp only [apply_ite bmu_state_t.discharge_state, ite_self]

/-- The mutual-exclusion property of the two sequencer flags. -/
def MutexOK (s : Sys) : Prop :=
  s.BMU.precharge_state = false ∨ s.BMU.discharge_state = false

/-- update_relays cannot create a state with both sequencer flags set:
precharge ends with discharge_state cleared, discharge ends with
precharge_state cleared, and the remaining paths do not touch them. -/
theorem update_relays_mutex (s : Sys) (h : MutexOK s) : MutexOK (update_relays s) := by
  unfold MutexOK at h ⊢
  simp only [update_relays, precharge, discharge]
  split
  · split
    · right; rfl
    · exact h
  · split
    · left; rfl
    · exact h

/-- An optionally executed relay update preserves the mutual exclusion. -/
theorem opt_relays_mutex (c : Bool) (t : Sys) (ht : MutexOK t) :
    MutexOK (if c then update_relays t else t) := by
  cases c
  · exact ht
  · exact update_relays_mutex t ht

/-- One main-loop iteration preserves the mutual exclusion. -/
theorem mainLoopIter_mutex (s : Sys) (hb : Bool) (h : MutexOK s) :
    MutexOK (mainLoopIter s hb) := by
  have h1 : MutexOK (update_BMU_status_array (check_cells s)) := by
    unfold MutexOK at h ⊢
    rw [update_status_precharge_state, update_status_discharge_state,
        check_cells_precharge_state, check_cells_discharge_state]
    exact h
  exact opt_relays_mutex _ _ (opt_relays_mutex hb _ h1)

/-- Every run of the system preserves the mutual exclusion. -/
theorem foldl_mutex (es : List Event) : ∀ s : Sys, MutexOK s → MutexOK (es.foldl bmuStep s) := by
  induction es with
  | nil => intro s h; exact h
  | cons e tl ih =>
    intro s h
    refine ih _ ?_
    cases e with
    | recv m now =>
      have hr := recv_BMU_eq s m now
      unfold MutexOK at h ⊢
      simp only [bmuStep, hr]
      exact h
    | loopIter hb => exact mainLoopIter_mutex s hb h

/-- C3: in every reachable state the precharge_state and discharge_state
flags are never both true. -/
theorem C3_precharge_discharge_mutex (s : Sys) (h : ReachableBMU s) :
    ¬(s.BMU.precharge_state = true ∧ s.BMU.discharge_state = true) := by
  obtain ⟨es, hes⟩ := h
  subst hes
  have hm := foldl_mutex es initSys (Or.inl rfl)
  rintro ⟨hp, hd⟩
  unfold MutexOK at hm
  unfold runTrace at hp hd
  rcases hm with h1 | h1 <;> simp_all

/-- Witness for C3 at the boot state. -/
theorem C3_witness :
    ¬(initSys.BMU.precharge_state = true ∧ initSys.BMU.discharge_state = true) :=
  C3_precharge_discharge_mutex initSys ⟨[], rfl⟩

/-- Builds the eight data bytes of a CAN frame from a list (padded with 0). -/
def msgBytes (l : List Nat) : Fin 8 → Nat := fun i => l.getD (i : Nat) 0

/-- A run that brings both IVTs into range, turns the ignition on so the
beat engages the contactors and precharges, and then delivers an
ignition-off driver frame before any further beat. -/
def c2Trace : List Event :=
  [Event.recv ⟨0x521, msgBytes [0, 0, 0, 0, 0xC3, 0x50, 0, 0]⟩ 0,
   Event.recv ⟨0x531, msgBytes [0, 0, 0, 0, 0xC3, 0x50, 0, 0]⟩ 0,
   Event.recv ⟨0x524, msgBytes [0, 0, 0, 0, 0, 250, 0, 0]⟩ 0,
   Event.recv ⟨0x534, msgBytes [0, 0, 0, 0, 0, 250, 0, 0]⟩ 0,
   Event.loopIter false,
   Event.recv ⟨0x500, msgBytes [1, 0, 0, 0, 0, 0, 0, 0]⟩ 0,
   Event.loopIter true,
   Event.recv ⟨0x500, msgBytes [0, 0, 0, 0, 0, 0, 0, 0]⟩ 0]

/-- Counterexample to C1-as-stated for claim C2: a reachable state in which
the last emitted contactor command byte is 1 and the main HV contactor
output is high although ignition_demand is false — the ignition-off frame
arriving between beats does not retract the command until the next beat. -/
theorem C2_counterexample :
    ReachableBMU (runTrace c2Trace) ∧
    (runTrace c2Trace).contactor_cmd = 1 ∧
    (runTrace c2Trace).hvdc_enable = true ∧
    (runTrace c2Trace).ignition_demand = false :=
  ⟨⟨c2Trace, rfl⟩, by decide, by decide, by decide⟩

/-- C2 (amended): whenever a relay-update pass produces contactor command
byte 1 (which is also when it emits the 0x34F frame with payload 0x01 and
raises hvdc_enable), the resulting state has ignition_demand,
safe_to_drive and precharge_state all established; between relay updates
the previously emitted command can go stale. -/
theorem C2_contactor_guard (s : Sys) :
    (update_relays s).contactor_cmd = 1 →
    (update_relays s).ignition_demand = true ∧
    (update_relays s).BMU.safe_to_drive = true ∧
    (update_relays s).BMU.precharge_state = true := by
  simp only [update_relays, precharge]
  split
  · rename_i hg
    intro _
    simp only [Bool.and_eq_true, Bool.not_eq_true'] at hg
    split
    · exact ⟨hg.1.1, hg.2, rfl⟩
    · rename_i hp
      refine ⟨hg.1.1, hg.2, ?_⟩
      simpa using hp
  · intro hc
    exfalso
    revert hc
    split <;> simp [discharge]

/-- A state from which the relay update engages the contactors. -/
def w2 : Sys :=
  { initSys with ignition_demand := true,
                 BMU := { initSys.BMU with safe_to_drive := true } }

/-- Witness for the amended C2 on w2. -/
theorem C2_witness :
    (update_relays w2).ignition_demand = true ∧
    (update_relays w2).BMU.safe_to_drive = true ∧
    (update_relays w2).BMU.precharge_state = true :=
  C2_contactor_guard w2 (by decide)

/-- A run that switches the solar output on in a non-driving beat and then
engages the contactors on an ignition rising edge while the solar demand
persists. -/
def c8Trace : List Event :=
  [Event.recv ⟨0x521, msgBytes [0, 0, 0, 0, 0xC3, 0x50, 0, 0]⟩ 0,
   Event.recv ⟨0x531, msgBytes [0, 0, 0, 0, 0xC3, 0x50, 0, 0]⟩ 0,
   Event.recv ⟨0x524, msgBytes [0, 0, 0, 0, 0, 250, 0, 0]⟩ 0,
   Event.recv ⟨0x534, msgBytes [0, 0, 0, 0, 0, 250, 0, 0]⟩ 0,
   Event.loopIter false,
   Event.recv ⟨0x500, msgBytes [8, 0, 0, 0, 0, 0, 0, 0]⟩ 0,
   Event.loopIter true,
   Event.recv ⟨0x500, msgBytes [9, 0, 0, 0, 0, 0, 0, 0]⟩ 0,
   Event.loopIter true]

/-- Counterexample for claim C8: a reachable state with the solar enable
output high while the contactors are engaged (command byte 1 and main HV
output high) — a driving beat never reassigns solar_enable, so the value
latched in an earlier non-driving beat persists into the driving state. -/
theorem C8_counterexample :
    ReachableBMU (runTrace c8Trace) ∧
    (runTrace c8Trace).solar_enable = true ∧
    (runTrace c8Trace).contactor_cmd = 1 ∧
    (runTrace c8Trace).hvdc_enable = true :=
  ⟨⟨c8Trace, rfl⟩, by decide, by decide, by decide⟩

/-- C8 (amended): the solar enable output is reassigned exactly by the
non-driving relay updates, where it becomes solar_demand and safe_to_drive
with the contactor command at 0; a driving relay update leaves it at its
previous value. -/
theorem C8_solar_gating (s : Sys) :
    (¬((s.ignition_demand && !s.previous_ignition_demand && s.BMU.safe_to_drive) = true) →
      (update_relays s).solar_enable = (s.solar_demand && s.BMU.safe_to_drive) ∧
      (update_relays s).contactor_cmd = 0)
    ∧ (((s.ignition_demand && !s.previous_ignition_demand && s.BMU.safe_to_drive) = true) →
      (update_relays s).solar_enable = s.solar_enable) := by
  constructor
  · intro hg
    simp only [update_relays, discharge]
    rw [if_neg hg]
    constructor
    · split <;> rfl
    · split <;> rfl
  · intro hg
    simp only [update_relays, precharge]
    rw [if_pos hg]
    split <;> rfl

/-- A non-driving state with solar demand while safe. -/
def w8 : Sys :=
  { initSys with solar_demand := true,
                 BMU := { initSys.BMU with safe_to_drive := true } }

/-- Witness for the amended C8 on w8. -/
theorem C8_witness :
    (update_relays w8).solar_enable = (w8.solar_demand && w8.BMU.safe_to_drive) ∧
    (update_relays w8).contactor_cmd = 0 :=
  (C8_solar_gating w8).1 (by decide)

/-- Recognises main-loop iteration events (no CAN frame arrivals). -/
def isLoopOnly : Event → Bool := fun e =>
  match e with
  | Event.recv _ _ => false
  | Event.loopIter _ => true

/-- update_relays never touches the latched IVT interval. -/
theorem update_relays_IVT_time (s : Sys) :
    (update_relays s).IVT_time = s.IVT_time := by
  simp only [update_relays, precharge, discharge]
  split
  · split <;> rfl
  · split <;> rfl

/-- An optionally executed relay update never touches the interval. -/
theorem opt_relays_IVT_time (c : Bool) (t : Sys) :
    (if c then update_relays t else t).IVT_time = t.IVT_time := by
  cases c
  · rfl
  · exact update_relays_IVT_time t

/-- A whole main-loop iteration never touches the latched IVT interval:
only the CAN receive handler writes it. -/
theorem mainLoopIter_IVT_time (s : Sys) (hb : Bool) :
    (mainLoopIter s hb).IVT_time = s.IVT_time := by
  unfold mainLoopIter beat
  rw [opt_relays_IVT_time, opt_relays_IVT_time]
  rfl

/-- C4 (code evaluation): on a cold boot with no CAN traffic, the latched
interval IVT_time stays 0 through every main-loop iteration, so the
staleness test of update_BMU_status_array never raises, no matter how much
real time has elapsed — the source only latches the interval when a
current frame arrives, so silence is never detected. -/
theorem C4_no_frames_no_staleness (es : List Event) (h : es.all isLoopOnly = true) :
    (runTrace es).IVT_time = 0 ∧ ivt_timeout_raised (runTrace es) = false := by
  have key : ∀ (l : List Event), l.all isLoopOnly = true →
      ∀ t : Sys, (l.foldl bmuStep t).IVT_time = t.IVT_time := by
    intro l
    induction l with
    | nil => intro _ t; rfl
    | cons e tl ih =>
      intro hall t
      rw [List.all_cons, Bool.and_eq_true] at hall
      have h2 := ih hall.2
      cases e with
      | recv m now => simp [isLoopOnly] at hall
      | loopIter hb =>
        rw [List.foldl_cons]
        rw [h2 (bmuStep t (Event.loopIter hb))]
        exact mainLoopIter_IVT_time t hb
  have h0 : (runTrace es).IVT_time = 0 := by
    unfold runTrace
    rw [key es h]
    rfl
  refine ⟨h0, ?_⟩
  simp [ivt_timeout_raised, h0, IVT_TIMEOUT_MS]

/-- Witness for C4 on a run of two silent loop iterations. -/
theorem C4_witness :
    (runTrace [Event.loopIter true, Event.loopIter false]).IVT_time = 0 ∧
    ivt_timeout_raised (runTrace [Event.loopIter true, Event.loopIter false]) = false :=
  C4_no_frames_no_staleness [Event.loopIter true, Event.loopIter false] (by decide)

/-- A run that puts both packs in range and then delivers a rear current
frame of -150000 mA (below the charging limit) with the front at 0 mA. -/
def c5Trace : List Event :=
  [Event.recv ⟨0x521, msgBytes [0, 0, 0, 0, 0xC3, 0x50, 0, 0]⟩ 0,
   Event.recv ⟨0x531, msgBytes [0, 0, 0, 0, 0xC3, 0x50, 0, 0]⟩ 0,
   Event.recv ⟨0x524, msgBytes [0, 0, 0, 0, 0, 250, 0, 0]⟩ 0,
   Event.recv ⟨0x534, msgBytes [0, 0, 0, 0, 0, 250, 0, 0]⟩ 0,
   Event.recv ⟨0x530, msgBytes [0, 0, 0xFF, 0xFD, 0xB6, 0x10, 0, 0]⟩ 0,
   Event.loopIter false]

/-- C5 (code evaluation): with the true smaller pack current at
-150000 mA, strictly below the charging limit, the evaluator pass leaves
over_current clear, because ivt_min_current returns the larger current
(0 mA) instead of the smaller one. -/
theorem C5_min_current_bug :
    (runTrace c5Trace).ivt_rear.current = -150000 ∧
    (runTrace c5Trace).ivt_front.current = 0 ∧
    min (runTrace c5Trace).ivt_front.current (runTrace c5Trace).ivt_rear.current
      < max_charging_current ∧
    ivt_min_current (runTrace c5Trace) = 0 ∧
    (runTrace c5Trace).BMU.over_current = false := by
  refine ⟨by decide, by decide, by decide, by decide, by decide⟩

/-- A run that puts both packs in range except the front IVT temperature,
reported as 10 tenths of a degree (1.0 C, below the 2 C lower bound). -/
def c7Trace : List Event :=
  [Event.recv ⟨0x521, msgBytes [0, 0, 0, 0, 0xC3, 0x50, 0, 0]⟩ 0,
   Event.recv ⟨0x531, msgBytes [0, 0, 0, 0, 0xC3, 0x50, 0, 0]⟩ 0,
   Event.recv ⟨0x524, msgBytes [0, 0, 0, 0, 0, 10, 0, 0]⟩ 0,
   Event.recv ⟨0x534, msgBytes [0, 0, 0, 0, 0, 250, 0, 0]⟩ 0,
   Event.loopIter false]

/-- C7 (code evaluation): a front-IVT under-temperature alone leaves
under_temperature false at the end of the pass, the heartbeat bit 3
clear and safe_to_drive set: the front branch raises under_voltage_flag
instead of under_temperature_flag, so the end-of-pass clearing erases the
fault it had just set. -/
theorem C7_front_under_temperature_lost :
    (runTrace c7Trace).ivt_front.temperature = 10 ∧
    (runTrace c7Trace).BMU.under_temperature = false ∧
    (runTrace c7Trace).under_voltage_flag = true ∧
    (runTrace c7Trace).under_temperature_flag = false ∧
    Nat.testBit (runTrace c7Trace).status0 3 = false ∧
    (runTrace c7Trace).BMU.safe_to_drive = true := by
  refine ⟨by decide, by decide, by decide, by decide, by decide, by decide⟩

/-- A run whose first evaluator pass latches the upper voltage fault with
the front pack at 67300 mV while the rear pack and both temperatures stay
in range. -/
def c6TraceA : List Event :=
  [Event.recv ⟨0x521, msgBytes [0, 0, 0, 1, 6, 228, 0, 0]⟩ 0,
   Event.recv ⟨0x531, msgBytes [0, 0, 0, 0, 0xC3, 0x50, 0, 0]⟩ 0,
   Event.recv ⟨0x524, msgBytes [0, 0, 0, 0, 0, 250, 0, 0]⟩ 0,
   Event.recv ⟨0x534, msgBytes [0, 0, 0, 0, 0, 250, 0, 0]⟩ 0,
   Event.loopIter false]

/-- The same run continued: the front pack drops only to 67100 mV, still
above the nominal 67040 mV upper bound, before the next evaluator pass. -/
def c6Trace : List Event :=
  c6TraceA ++
  [Event.recv ⟨0x521, msgBytes [0, 0, 0, 1, 6, 28, 0, 0]⟩ 0,
   Event.loopIter false]

/-- Counterexample for claim C6: the upper voltage fault latched by the
first pass is cleared by the next pass although the reading, 67100 mV, has
not dropped below the nominal upper bound of 67040 mV — when latched the
source widens the trigger threshold to 67200 mV, so any reading at or
below 67200 mV clears the fault. -/
theorem C6_counterexample :
    (runTrace c6TraceA).BMU.over_voltage = true ∧
    (runTrace c6TraceA).over_voltage_flag = true ∧
    (runTrace c6Trace).ivt_front.voltage1 = 67100 ∧
    ¬((runTrace c6Trace).ivt_front.voltage1 < max_battery_pack_voltage_mv) ∧
    (runTrace c6Trace).BMU.over_voltage = false :=
  ⟨by decide, by decide, by decide, by decide, by decide⟩

/-- C6 (amended): when the upper voltage fault was latched on the previous
pass, the effective upper threshold is the nominal bound plus the
hysteresis (67040 + 160 mV); a pass in which no reading exceeds that
widened bound and no reading is under the effective lower threshold clears
both voltage faults and the latch — even when a reading still lies above
the nominal upper bound. -/
theorem C6_latched_upper_clears_inside_band (s : Sys)
    (hov : s.over_voltage_flag = true)
    (hf : ¬(s.ivt_front.voltage1 > max_battery_pack_voltage_mv + battery_pack_hysteresis))
    (hr : ¬(s.ivt_rear.voltage1 > max_battery_pack_voltage_mv + battery_pack_hysteresis))
    (hfl : ¬(s.ivt_front.voltage1 <
      (if s.under_voltage_flag = true
       then min_battery_pack_voltage_mv - battery_pack_hysteresis
       else min_battery_pack_voltage_mv)))
    (hrl : ¬(s.ivt_rear.voltage1 <
      (if s.under_voltage_flag = true
       then min_battery_pack_voltage_mv - battery_pack_hysteresis
       else min_battery_pack_voltage_mv))) :
    (check_cells s).BMU.over_voltage = false ∧
    (check_cells s).BMU.under_voltage = false ∧
    (check_cells s).over_voltage_flag = false := by
  simp only [check_cells, hov, eq_self_iff_true, if_true, hf, hr, hfl, hrl, if_false]
  simp only [apply_ite bmu_state_t.over_voltage, apply_ite bmu_state_t.under_voltage, ite_self]
  simp

/-- A latched-upper state with the front pack inside the widened band. -/
def w6 : Sys :=
  { initSys with
      over_voltage_flag := true,
      ivt_front := { initSys.ivt_front with voltage1 := 67100, temperature := 250 },
      ivt_rear := { initSys.ivt_rear with voltage1 := 50000, temperature := 250 } }

/-- Witness for the amended C6 on w6. -/
theorem C6_witness :
    (check_cells w6).BMU.over_voltage = false ∧
    (check_cells w6).BMU.under_voltage = false ∧
    (check_cells w6).over_voltage_flag = false :=
  C6_latched_upper_clears_inside_band w6 (by decide) (by decide) (by decide)
    (by decide) (by decide)

set_option maxRecDepth 16384 in
/-- C10: the decoder's array writes stay in bounds: a frame with id in
0x360..0x367 writes only the four cell_voltages entries at
4 * (id - 0x360) .. + 3, all below 32, leaving every other entry and the
temperature matrix unchanged; a 0x550 or 0x562 frame writes only row 0 or
row 1 of cell_temperatures, leaving the other row and cell_voltages
unchanged; every other identifier leaves both arrays unchanged. -/
theorem C10_decoder_bounds (s : Sys) (m : CanMsg) (now : Nat) :
    (0x360 ≤ m.id → m.id ≤ 0x367 →
      4 * (m.id - 0x360) + 3 < 32 ∧
      (∀ j : Fin 32, ((j : Nat) < 4 * (m.id - 0x360) ∨ 4 * (m.id - 0x360) + 4 ≤ (j : Nat)) →
        (CANRecieveRoutine s m now).cell_voltages j = s.cell_voltages j) ∧
      (CANRecieveRoutine s m now).cell_temperatures = s.cell_temperatures)
    ∧ (m.id = 0x550 →
      (CANRecieveRoutine s m now).cell_voltages = s.cell_voltages ∧
      (∀ c : Fin 8, (CANRecieveRoutine s m now).cell_temperatures 1 c = s.cell_temperatures 1 c))
    ∧ (m.id = 0x562 →
      (CANRecieveRoutine s m now).cell_voltages = s.cell_voltages ∧
      (∀ c : Fin 8, (CANRecieveRoutine s m now).cell_temperatures 0 c = s.cell_temperatures 0 c))
    ∧ (¬(0x360 ≤ m.id ∧ m.id ≤ 0x367) → m.id ≠ 0x550 → m.id ≠ 0x562 →
      (CANRecieveRoutine s m now).cell_voltages = s.cell_voltages ∧
      (CANRecieveRoutine s m now).cell_temperatures = s.cell_temperatures) := by
  obtain ⟨mid, mdata⟩ := m
  refine ⟨?_, ?_, ?_, ?_⟩
  · intro h1 h2
    have hid : 0x360 ≤ mid ∧ mid ≤ 0x367 := ⟨h1, h2⟩
    refine ⟨by omega, ?_, ?_⟩
    · intro j hj
      dsimp only at hj
      unfold CANRecieveRoutine
      rw [dif_pos hid]
      dsimp only
      unfold writeCellVoltages
      rw [Function.update_noteq (Fin.ne_of_val_ne (by dsimp only; omega)),
          Function.update_noteq (Fin.ne_of_val_ne (by dsimp only; omega)),
          Function.update_noteq (Fin.ne_of_val_ne (by dsimp only; omega)),
          Function.update_noteq (Fin.ne_of_val_ne (by dsimp only; omega))]
    · unfold CANRecieveRoutine
      rw [dif_pos hid]
  · intro h5
    subst h5
    exact ⟨rfl, fun c => rfl⟩
  · intro h6
    subst h6
    exact ⟨rfl, fun c => rfl⟩
  · intro hno h5 h6
    unfold CANRecieveRoutine
    constructor
    · simp only [hno, h5, h6, dite_false, if_false,
                 apply_ite Sys.cell_voltages, ite_self]
    · simp only [hno, h5, h6, dite_false, if_false,
                 apply_ite Sys.cell_temperatures, ite_self]

/-- Witness for C10 at a concrete frame, state and index. -/
theorem C10_witness :
    (CANRecieveRoutine initSys ⟨0x361, msgBytes [1, 2, 3, 4, 5, 6, 7, 8]⟩ 0).cell_voltages
      ⟨0, by omega⟩ = initSys.cell_voltages ⟨0, by omega⟩ ∧
    (CANRecieveRoutine initSys ⟨0x361, msgBytes [1, 2, 3, 4, 5, 6, 7, 8]⟩ 0).cell_temperatures
      = initSys.cell_temperatures :=
  ⟨((C10_decoder_bounds initSys ⟨0x361, msgBytes [1, 2, 3, 4, 5, 6, 7, 8]⟩ 0).1
      (by decide) (by decide)).2.1 ⟨0, by omega⟩ (by decide),
   ((C10_decoder_bounds initSys ⟨0x361, msgBytes [1, 2, 3, 4, 5, 6, 7, 8]⟩ 0).1
      (by decide) (by decide)).2.2⟩
